import Mathlib

/-!
# Verification of the govt-agent search/chat front-end core

Shallow embedding of the glue core of the repository:

* `VectorClient` (src/src/services/VectorClient.ts): endpoint resolution with
  sticky local fallback, hybrid/vector-only/kg-only search, chat with RAG
  context;
* `ChatService` (second module of the same file): context retrieval and
  chat-response generation with error synthesis;
* `ResultCard` (components): score-badge selection;
* UI handlers `handleSearch`, `loadInitialResults` (pages) and
  `handleChatSubmit` (RAGChatInterface): loading-flag lifecycle;
* the merge strategies of the backend (not present in the sources; modelled
  from the specification).

The network is modelled as an oracle (`Net`): one typed response function per
endpoint, taking the global request index (number of requests issued so far in
the session) and the request itself, so that time-varying network behaviour is
expressible.  JavaScript exceptions become `Except JsError`; every outbound
request is recorded in a chronological log.  JavaScript numbers are modelled
as rationals (`ℚ`); `x || d` on numbers is modelled as "d if x is 0 or
missing" (NaN is not modelled).  The axios probe timeout (3000 ms) is recorded
on the request but has no further semantics here.
-/

/-- JavaScript `Error` value: only the `message` field is consumed by this
code (`error instanceof Error ? error.message : String(error)`). -/
structure JsError where
  message : String
deriving DecidableEq, Repr

/-- Interface `VectorSearchResult` from VectorClient.ts: one record shape for
both vector and knowledge-graph hits, with optional score fields. -/
structure VectorSearchResult where
  doc_id : Option String := none
  title : String := ""
  url : String := ""
  source : Option String := none
  subsource : Option String := none
  summary : Option String := none
  search_type : String := ""
  similarity_score : Option ℚ := none
  relevance_score : Option ℚ := none
  combined_score : Option ℚ := none
  matched_entity : Option String := none
  graph_context : Option String := none
deriving DecidableEq, Repr

/-- Chat message role ("user" or "assistant"). -/
inductive Role where
  | user
  | assistant
deriving DecidableEq, Repr

/-- Interface `ChatMessage`. -/
structure ChatMessage where
  role : Role
  content : String
deriving DecidableEq, Repr

/-- Interface `ChatResponse` of VectorClient.ts. -/
structure ChatResponse where
  response : String
  sources : List VectorSearchResult
deriving DecidableEq, Repr

/-- Merge method enum ("weighted", "interleave" or "separate"). -/
inductive MergeMethod where
  | weighted
  | interleave
  | separate
deriving DecidableEq, Repr

/-- Interface `SearchParams`: optional fields are `Option`s. -/
structure SearchParams where
  query : String
  limit : Option Int := none
  vector_weight : Option ℚ := none
  merge_method : Option MergeMethod := none
deriving DecidableEq, Repr

/-- Body of `POST /api/search` (hybrid search). -/
structure SearchBody where
  query : String
  limit : Int
  vector_weight : ℚ
  merge_method : MergeMethod
deriving DecidableEq, Repr

/-- Body of `POST /api/vector-search` and `POST /api/kg-search`. -/
structure SimpleSearchBody where
  query : String
  limit : Int
deriving DecidableEq, Repr

/-- Body of `POST /api/chat`. -/
structure ChatReqBody where
  query : String
  chat_history : List ChatMessage
  context : List VectorSearchResult
deriving DecidableEq, Repr

/-- Request bodies that the client sends. -/
inductive ReqBody where
  | empty
  | search (b : SearchBody)
  | simple (b : SimpleSearchBody)
  | chat (b : ChatReqBody)
deriving DecidableEq, Repr

/-- One outbound HTTP request, as issued by an axios call site. -/
structure Request where
  method : String
  baseUrl : String
  path : String
  body : ReqBody
  timeoutMs : Option Nat := none
deriving DecidableEq, Repr

/-- Response of `GET /api/health`. -/
structure HealthResp where
  status : String
  timestamp : String
deriving DecidableEq, Repr

/-- Response of `GET /api/debug` (only the capabilities are consumed). -/
structure DebugInfo where
  vector_search_available : Bool
  knowledge_graph_available : Bool
deriving DecidableEq, Repr

/-- Response of `POST /api/chat` (`response.data.response`). -/
structure ChatApiResp where
  response : String
deriving DecidableEq, Repr

/-- Network oracle: one typed response function per endpoint.  The first
argument is the global request index (the number of requests issued so far in
the session), so responses may vary over time. -/
structure Net where
  health : Nat → Request → Except JsError HealthResp
  debug : Nat → Request → Except JsError DebugInfo
  search : Nat → Request → Except JsError (List VectorSearchResult)
  vectorSearch : Nat → Request → Except JsError (List VectorSearchResult)
  kgSearch : Nat → Request → Except JsError (List VectorSearchResult)
  chat : Nat → Request → Except JsError ChatApiResp

/-- The mutable fields of the `VectorClient` instance. -/
structure Client where
  apiBaseUrl : String
  usingFallback : Bool
deriving DecidableEq, Repr

/-- Client state plus the chronological request log of the session. -/
structure Trace where
  client : Client
  log : List Request
deriving Repr

/-- The hard-coded local fallback address. -/
def localUrl : String := "http://localhost:8000"

/-- Does `l` contain `sub` as a contiguous sublist? -/
def charListIncl (sub : List Char) : List Char → Bool
  | [] => sub.isEmpty
  | c :: cs => sub.isPrefixOf (c :: cs) || charListIncl sub cs

/-- JavaScript `s.includes(sub)`. -/
def strIncludes (s sub : String) : Bool :=
  charListIncl sub.toList s.toList

/-- ASCII whitespace as stripped by JavaScript `trim`. -/
def isWhite (c : Char) : Bool :=
  c = ' ' || c = '\t' || c = '\n' || c = '\r'

/-- JavaScript `s.trim()`: strip whitespace from both ends. -/
def jsTrim (s : String) : String :=
  ⟨((s.toList.dropWhile isWhite).reverse.dropWhile isWhite).reverse⟩

/-- JavaScript `x || d` where `x` is an optional number: falsy numbers (0)
are replaced by the default.  (NaN is not modelled.) -/
def jsOrInt (x : Option Int) (d : Int) : Int :=
  match x with
  | none => d
  | some v => if v = 0 then d else v

/-- JavaScript `x || d` for an optional rational-valued number. -/
def jsOrRat (x : Option ℚ) (d : ℚ) : ℚ :=
  match x with
  | none => d
  | some v => if v = 0 then d else v

/-- Issue one request: append it to the log (stamped with the current base URL
of the client) and return the updated trace, the global index of the request,
and the request itself. -/
def issue (tr : Trace) (method path : String) (body : ReqBody)
    (timeoutMs : Option Nat) : Trace × Nat × Request :=
  let r : Request :=
    { method := method, baseUrl := tr.client.apiBaseUrl, path := path,
      body := body, timeoutMs := timeoutMs }
  ({ tr with log := tr.log ++ [r] }, tr.log.length, r)

/-- The assignment performed by both switch sites: set `apiBaseUrl` to the
local address and `usingFallback` to true. -/
def switchToLocal (_ : Client) : Client :=
  { apiBaseUrl := localUrl, usingFallback := true }

/-- Method `VectorClient.switchToLocalIfNeeded`: when not already on the
fallback and the base URL does not contain "localhost", probe
GET base/api/health with a 3000 ms timeout; on failure switch to the local
address (the probe exception is swallowed). -/
def switchToLocalIfNeeded (net : Net) (tr : Trace) : Trace :=
  if !tr.client.usingFallback && !(strIncludes tr.client.apiBaseUrl "localhost") then
    let (tr1, k, r) := issue tr "GET" "/api/health" .empty (some 3000)
    match net.health k r with
    | .ok _ => tr1
    | .error _ => { tr1 with client := switchToLocal tr1.client }
  else tr

/-- Method `VectorClient.healthCheck`: probe-and-switch, then
`GET /api/health`; on failure, if not yet on the fallback, switch and retry
once, surfacing the error of the retry (`throw fallbackError`); otherwise
surface the error. -/
def healthCheck (net : Net) (tr : Trace) : Trace × Except JsError HealthResp :=
  let tr0 := switchToLocalIfNeeded net tr
  let (tr1, k, r) := issue tr0 "GET" "/api/health" .empty none
  match net.health k r with
  | .ok resp => (tr1, .ok resp)
  | .error e =>
    if !tr1.client.usingFallback then
      let tr2 := { tr1 with client := switchToLocal tr1.client }
      let (tr3, k2, r2) := issue tr2 "GET" "/api/health" .empty none
      match net.health k2 r2 with
      | .ok resp => (tr3, .ok resp)
      | .error e2 => (tr3, .error e2)
    else (tr1, .error e)

/-- Method `VectorClient.getDebugInfo`: probe-and-switch, then
`GET /api/debug`; errors are logged and rethrown unchanged. -/
def getDebugInfo (net : Net) (tr : Trace) : Trace × Except JsError DebugInfo :=
  let tr0 := switchToLocalIfNeeded net tr
  let (tr1, k, r) := issue tr0 "GET" "/api/debug" .empty none
  (tr1, net.debug k r)

/-- The body `searchHybrid` posts: limit `params.limit || 5`, vector weight
`params.vector_weight || 0.5`, and the merge method defaulting to weighted. -/
def hybridBody (params : SearchParams) : SearchBody :=
  { query := params.query,
    limit := jsOrInt params.limit 5,
    vector_weight := jsOrRat params.vector_weight (1/2),
    merge_method := params.merge_method.getD .weighted }

/-- Method `VectorClient.searchHybrid`: probe-and-switch, then
`POST /api/search` with the defaulted body; errors rethrown unchanged. -/
def searchHybrid (net : Net) (tr : Trace) (params : SearchParams) :
    Trace × Except JsError (List VectorSearchResult) :=
  let tr0 := switchToLocalIfNeeded net tr
  let (tr1, k, r) := issue tr0 "POST" "/api/search" (.search (hybridBody params)) none
  (tr1, net.search k r)

/-- Legacy method `VectorClient.searchVectors`: simply
`this.searchHybrid({ query, limit })`. -/
def searchVectors (net : Net) (tr : Trace) (query : String) (limit : Int) :
    Trace × Except JsError (List VectorSearchResult) :=
  searchHybrid net tr { query := query, limit := some limit }

/-- Method `VectorClient.searchVectorOnly`: probe-and-switch, then
`POST /api/vector-search` with `{query, limit: params.limit || 5}`. -/
def searchVectorOnly (net : Net) (tr : Trace) (params : SearchParams) :
    Trace × Except JsError (List VectorSearchResult) :=
  let tr0 := switchToLocalIfNeeded net tr
  let body : SimpleSearchBody := { query := params.query, limit := jsOrInt params.limit 5 }
  let (tr1, k, r) := issue tr0 "POST" "/api/vector-search" (.simple body) none
  (tr1, net.vectorSearch k r)

/-- Method `VectorClient.searchKnowledgeGraphOnly`: probe-and-switch, then
`POST /api/kg-search` with `{query, limit: params.limit || 5}`. -/
def searchKnowledgeGraphOnly (net : Net) (tr : Trace) (params : SearchParams) :
    Trace × Except JsError (List VectorSearchResult) :=
  let tr0 := switchToLocalIfNeeded net tr
  let body : SimpleSearchBody := { query := params.query, limit := jsOrInt params.limit 5 }
  let (tr1, k, r) := issue tr0 "POST" "/api/kg-search" (.simple body) none
  (tr1, net.kgSearch k r)

/-- The search parameters `sendChatMessage` uses for its context retrieval:
`{ query, limit: 3, vector_weight: 0.7 }`. -/
def chatSearchParams (query : String) : SearchParams :=
  { query := query, limit := some 3, vector_weight := some (7/10) }

/-- Method `VectorClient.sendChatMessage`: probe-and-switch, retrieve context via
`searchHybrid` (limit 3, vector_weight 0.7), then `POST /api/chat` with
`{query, chat_history, context: searchResults}` and return
`{response, sources: searchResults}`.  Any failure (including the retrieval)
is rethrown unchanged by the surrounding catch. -/
def sendChatMessage (net : Net) (tr : Trace) (query : String)
    (chatHistory : List ChatMessage) : Trace × Except JsError ChatResponse :=
  let tr0 := switchToLocalIfNeeded net tr
  match searchHybrid net tr0 (chatSearchParams query) with
  | (tr1, .error e) => (tr1, .error e)
  | (tr1, .ok searchResults) =>
    let body : ChatReqBody :=
      { query := query, chat_history := chatHistory, context := searchResults }
    let (tr2, k, r) := issue tr1 "POST" "/api/chat" (.chat body) none
    match net.chat k r with
    | .error e => (tr2, .error e)
    | .ok resp => (tr2, .ok { response := resp.response, sources := searchResults })

/-- One session-level operation on the shared `VectorClient` singleton. -/
inductive Op where
  | opHealthCheck
  | opGetDebugInfo
  | opSearchHybrid (params : SearchParams)
  | opSearchVectorOnly (params : SearchParams)
  | opSearchKnowledgeGraphOnly (params : SearchParams)
  | opSendChatMessage (query : String) (history : List ChatMessage)

/-- Run one operation for its effect on the client state and request log. -/
def runOp (net : Net) (op : Op) (tr : Trace) : Trace :=
  match op with
  | .opHealthCheck => (healthCheck net tr).1
  | .opGetDebugInfo => (getDebugInfo net tr).1
  | .opSearchHybrid p => (searchHybrid net tr p).1
  | .opSearchVectorOnly p => (searchVectorOnly net tr p).1
  | .opSearchKnowledgeGraphOnly p => (searchKnowledgeGraphOnly net tr p).1
  | .opSendChatMessage q h => (sendChatMessage net tr q h).1

/-- Run a sequence of operations left to right. -/
def runOps (net : Net) (ops : List Op) (tr : Trace) : Trace :=
  ops.foldl (fun t o => runOp net o t) tr

/-! ## ChatService (second module of the combined sources) -/

/-- Response shape of `ChatService`: an assistant `ChatMessage` plus source
documents. -/
structure ChatServiceResponse where
  message : ChatMessage
  sources : List VectorSearchResult
deriving DecidableEq, Repr

/-- Method `ChatService.retrieveContext`: hybrid search with `searchLimit = 3`,
`vectorWeight = 0.7` and the weighted merge method; any error is caught and an
empty list returned. -/
def retrieveContext (net : Net) (tr : Trace) (query : String) :
    Trace × List VectorSearchResult :=
  match searchHybrid net tr
      { query := query, limit := some 3, vector_weight := some (7/10),
        merge_method := some .weighted } with
  | (tr1, .ok results) => (tr1, results)
  | (tr1, .error _) => (tr1, [])

/-- Prefix of the synthesized error reply of `ChatService.generateResponse`. -/
def errorReplyIntro : String :=
  "I\x27m sorry, I encountered an error while processing your request: "

/-- Method `ChatService.generateResponse`: retrieve context (never throws), call
`sendChatMessage`, and package the reply with the *retrieved* docs as
sources; on any thrown error return a synthesized assistant message with
empty sources.  The function is total: no error escapes it. -/
def generateResponse (net : Net) (tr : Trace) (query : String)
    (chatHistory : List ChatMessage) : Trace × ChatServiceResponse :=
  let (tr1, contextDocs) := retrieveContext net tr query
  match sendChatMessage net tr1 query chatHistory with
  | (tr2, .ok response) =>
    (tr2, { message := { role := .assistant, content := response.response },
            sources := contextDocs })
  | (tr2, .error e) =>
    (tr2, { message := { role := .assistant,
                         content := errorReplyIntro ++ e.message },
            sources := [] })

/-! ## ResultCard score badge (components) -/

/-- The one score badge a `ResultCard` displays. -/
inductive ScoreBadge where
  | combined (s : ℚ)
  | similarity (s : ℚ)
  | relevance (s : ℚ)
  | fallback
deriving DecidableEq, Repr

/-- The badge-selection cascade of `ResultCard`:
`combined_score !== undefined ? … : similarity_score !== undefined ? … :
relevance_score !== undefined ? … : "Result"`. -/
def scoreBadge (r : VectorSearchResult) : ScoreBadge :=
  match r.combined_score with
  | some s => .combined s
  | none =>
    match r.similarity_score with
    | some s => .similarity s
    | none =>
      match r.relevance_score with
      | some s => .relevance s
      | none => .fallback

/-- The textual label of each badge ("… combined" / "… match" /
"… relevant" / "Result"); the percentage formatting is display-only and not
modelled. -/
def scoreBadgeLabel : ScoreBadge → String
  | .combined _ => "combined"
  | .similarity _ => "match"
  | .relevance _ => "relevant"
  | .fallback => "Result"

/-! ## UI handlers -/

/-- Search mode tabs ("hybrid", "vector" or "kg"). -/
inductive SearchMode where
  | hybrid
  | vector
  | kg
deriving DecidableEq, Repr

/-- The page state touched by `handleSearch` / `loadInitialResults`. -/
structure SearchUI where
  searchQuery : String
  searchResults : List VectorSearchResult
  isSearching : Bool
  searchError : Option String
  searchMode : SearchMode
  vectorWeight : ℚ
  mergeMethod : MergeMethod
  searchLimit : Int
deriving DecidableEq, Repr

/-- Handler `handleSearch`: guard on a non-blank query, set `isSearching`, clear the
error, dispatch on the search mode, store results or an error message, and
clear `isSearching` in the `finally` block.  Returns the trace, the UI state
in effect while the network call is in flight (`none` on the early return),
and the final UI state. -/
def handleSearch (net : Net) (tr : Trace) (ui : SearchUI) :
    Trace × Option SearchUI × SearchUI :=
  if jsTrim ui.searchQuery = "" then (tr, none, ui) else
  let ui1 := { ui with isSearching := true, searchError := none }
  let params : SearchParams :=
    { query := ui.searchQuery, limit := some ui.searchLimit,
      vector_weight := some ui.vectorWeight, merge_method := some ui.mergeMethod }
  let call :=
    match ui.searchMode with
    | .hybrid => searchHybrid net tr params
    | .vector => searchVectorOnly net tr params
    | .kg => searchKnowledgeGraphOnly net tr params
  let ui2 :=
    match call.2 with
    | .ok results =>
      let u := { ui1 with searchResults := results }
      if results.length = 0 then
        { u with searchError :=
            (some "No results found. Try a different search term or search method.") }
      else u
    | .error e =>
      { ui1 with searchError := some ("Search failed: " ++ e.message) }
  (call.1, some ui1, { ui2 with isSearching := false })

/-- Helper `loadInitialResults`: like `handleSearch` but without the guard and the
error reset, always hybrid, with its own messages; `isSearching` is cleared
in the `finally` block. -/
def loadInitialResults (net : Net) (tr : Trace) (ui : SearchUI) :
    Trace × Option SearchUI × SearchUI :=
  let ui1 := { ui with isSearching := true }
  let call := searchHybrid net tr
    { query := ui.searchQuery, limit := some ui.searchLimit,
      vector_weight := some ui.vectorWeight, merge_method := some ui.mergeMethod }
  let ui2 :=
    match call.2 with
    | .ok results =>
      let u := { ui1 with searchResults := results }
      if results.length = 0 then
        { u with searchError := some "No results found for the initial search query." }
      else u
    | .error e =>
      { ui1 with searchError :=
          (some ("Failed to load initial results: " ++ e.message)) }
  (call.1, some ui1, { ui2 with isSearching := false })

/-- The chat pane state touched by `handleChatSubmit`. -/
structure ChatUI where
  chatMessages : List ChatMessage
  currentMessage : String
  isLoading : Bool
  isStreaming : Bool
  currentSources : List VectorSearchResult
deriving DecidableEq, Repr

/-- Handler `handleChatSubmit` (RAGChatInterface): guard on a non-blank message,
append the user message, clear the input, set `isLoading`; append a
placeholder, set `isStreaming`, call `chatService.generateResponse` with the
*pre-submit* message list as history (React closure semantics), replace the
placeholder with the reply and store the sources; the `finally` block clears
`isLoading` and `isStreaming`.  The catch branch is unreachable because
`generateResponse` is total.  Returns the trace, the UI state in effect while
`generateResponse` runs (`none` on the early return), and the final state. -/
def handleChatSubmit (net : Net) (tr : Trace) (ui : ChatUI) :
    Trace × Option ChatUI × ChatUI :=
  if jsTrim ui.currentMessage = "" then (tr, none, ui) else
  let userMessage : ChatMessage := { role := .user, content := ui.currentMessage }
  let ui1 := { ui with chatMessages := ui.chatMessages ++ [userMessage],
                       currentMessage := "", isLoading := true }
  let placeholder : ChatMessage := { role := .assistant, content := "" }
  let ui2 := { ui1 with chatMessages := ui1.chatMessages ++ [placeholder],
                        isStreaming := true }
  let chatHistory := ui.chatMessages
  let call := generateResponse net tr userMessage.content chatHistory
  let ui3 := { ui2 with
    chatMessages := ui2.chatMessages.dropLast ++ [(call.2).message],
    currentSources := (call.2).sources }
  (call.1, some ui2, { ui3 with isLoading := false, isStreaming := false })

/-! ## Merge Strategy Selector (backend; modelled from the spec) -/

/-- Modelled from the spec: the backend's `weighted` combined score
(`core.py` is not among the sources) —
`combined_score = vector_weight * similarity_score +
(1 - vector_weight) * relevance_score`, a missing score counting as 0. -/
def weightedScore (w : ℚ) (r : VectorSearchResult) : ℚ :=
  w * (r.similarity_score.getD 0) + (1 - w) * (r.relevance_score.getD 0)

/-- Modelled from the spec: the `weighted` merge (`core.py` is not among the
sources) — score every result of either list, sort the union descending by
`combined_score` with a stable sort (ties keep original relative order,
vector results listed first), truncate to `limit`. -/
def weightedMerge (w : ℚ) (limit : Nat) (vs gs : List VectorSearchResult) :
    List VectorSearchResult :=
  let scored := (vs ++ gs).map
    (fun r => { r with combined_score := some (weightedScore w r) })
  (scored.mergeSort
    (fun a b => decide ((b.combined_score.getD 0) ≤ (a.combined_score.getD 0)))).take limit

/-- Modelled from the spec: the `interleave` merge (`core.py` is not among
the sources) — alternate taking the next unconsumed item from the vector
list then the graph list, skipping an exhausted list, until `limit` items
are collected or both lists are exhausted.  The two list arguments swap
roles at each step to express the alternation. -/
def interleaveMerge (limit : Nat) (vs gs : List VectorSearchResult) :
    List VectorSearchResult :=
  match limit, vs, gs with
  | 0, _, _ => []
  | _ + 1, [], [] => []
  | n + 1, [], g :: gs => g :: interleaveMerge n gs []
  | n + 1, v :: vs, gs => v :: interleaveMerge n gs vs

/-- Modelled from the spec: the `separate` merge (`core.py` is not among the
sources) — vector results truncated to `⌈limit/2⌉` followed by graph results
truncated to `⌊limit/2⌋`, the internal order of each list preserved. -/
def separateMerge (limit : Nat) (vs gs : List VectorSearchResult) :
    List VectorSearchResult :=
  vs.take ((limit + 1) / 2) ++ gs.take (limit / 2)

/-- Modelled from the spec: the Merge Strategy Selector (`core.py` is not
among the sources) — dispatch on the configured merge method. -/
def mergeResults (method : MergeMethod) (w : ℚ) (limit : Nat)
    (vs gs : List VectorSearchResult) : List VectorSearchResult :=
  match method with
  | .weighted => weightedMerge w limit vs gs
  | .interleave => interleaveMerge limit vs gs
  | .separate => separateMerge limit vs gs

/-! ## Concrete fixtures used by witnesses and counterexamples -/

/-- A configured remote primary endpoint. -/
def primaryUrl : String := "https://api.example.com"

/-- A client already on the local fallback (both switch sites produce exactly
this state). -/
def fallbackClient : Client := { apiBaseUrl := localUrl, usingFallback := true }

/-- A fresh client whose configured endpoint is already the local address, so
the reachability probe is skipped. -/
def localClient : Client := { apiBaseUrl := localUrl, usingFallback := false }

/-- A fresh client configured with the remote primary endpoint. -/
def remoteClient : Client := { apiBaseUrl := primaryUrl, usingFallback := false }

/-- Empty session trace over the local client. -/
def trLocal : Trace := { client := localClient, log := [] }

/-- A sample vector hit. -/
def resA : VectorSearchResult :=
  { title := "A", search_type := "vector", similarity_score := some (9/10) }

/-- Oracle where every endpoint fails with the same error. -/
def noNet : Net :=
  { health := fun _ _ => .error { message := "down" },
    debug := fun _ _ => .error { message := "down" },
    search := fun _ _ => .error { message := "down" },
    vectorSearch := fun _ _ => .error { message := "down" },
    kgSearch := fun _ _ => .error { message := "down" },
    chat := fun _ _ => .error { message := "down" } }

/-- Oracle where every endpoint succeeds with fixed data. -/
def okNet : Net :=
  { health := fun _ _ => .ok { status := "healthy", timestamp := "t" },
    debug := fun _ _ => .ok { vector_search_available := true,
                              knowledge_graph_available := true },
    search := fun _ _ => .ok [resA],
    vectorSearch := fun _ _ => .ok [resA],
    kgSearch := fun _ _ => .ok [resA],
    chat := fun _ _ => .ok { response := "hello" } }

/-- Oracle where the first health request of the session (the primary probe)
fails with one error and every later health request fails with a different
error. -/
def bothFailNet : Net :=
  { noNet with health := fun k _ =>
      if k = 0 then .error { message := "primary down" }
      else .error { message := "fallback down" } }

/-- Oracle whose hybrid search answers `[resA]` to the first request of the
session and `[]` afterwards, everything else succeeding. -/
def flakySearchNet : Net :=
  { okNet with search := fun k _ => if k = 0 then .ok [resA] else .ok [] }

/-! ## Theorems -/

/-- Helper: the interleave merge never returns more than `limit` items. -/
theorem interleaveMerge_length_le :
    ∀ (limit : Nat) (vs gs : List VectorSearchResult),
      (interleaveMerge limit vs gs).length ≤ limit := by
  intro limit
  induction limit with
  | zero =>
    intro vs gs
    cases vs <;> cases gs <;> simp [interleaveMerge]
  | succ n ih =>
    intro vs gs
    match vs, gs with
    | [], [] => simp [interleaveMerge]
    | [], g :: gs =>
      simp only [interleaveMerge, List.length_cons]
      exact Nat.succ_le_succ (ih gs [])
    | v :: vs, gs =>
      simp only [interleaveMerge, List.length_cons]
      exact Nat.succ_le_succ (ih gs vs)

/-- C9: for all non-negative limits and all pairs of input result lists, each
of the three merge strategies (weighted, interleave, separate) returns a
sequence of length at most `limit`. -/
theorem mergeResults_length_le (method : MergeMethod) (w : ℚ) (limit : Nat)
    (vs gs : List VectorSearchResult) :
    (mergeResults method w limit vs gs).length ≤ limit := by
  cases method with
  | weighted =>
    simp only [mergeResults, weightedMerge]
    exact List.length_take_le _ _
  | interleave => exact interleaveMerge_length_le limit vs gs
  | separate =>
    have h1 := List.length_take_le ((limit + 1) / 2) vs
    have h2 := List.length_take_le (limit / 2) gs
    simp only [mergeResults, separateMerge, List.length_append]
    omega

/-- C7: `scoreBadge` displays exactly one primary score, chosen by the
precedence combined over similarity over relevance, and a result missing all
three scores gets the fallback badge labelled "Result" (the selection is a
total function, so rendering never raises). -/
theorem scoreBadge_precedence (r : VectorSearchResult) :
    (∀ c, r.combined_score = some c → scoreBadge r = .combined c) ∧
    (∀ s, r.combined_score = none → r.similarity_score = some s →
      scoreBadge r = .similarity s) ∧
    (∀ s, r.combined_score = none → r.similarity_score = none →
      r.relevance_score = some s → scoreBadge r = .relevance s) ∧
    (r.combined_score = none → r.similarity_score = none →
      r.relevance_score = none →
      scoreBadge r = .fallback ∧ scoreBadgeLabel (scoreBadge r) = "Result") := by
  refine ⟨?_, ?_, ?_, ?_⟩ <;> intros <;> simp_all [scoreBadge, scoreBadgeLabel]

/-- Witness for C7: a record with every score field missing renders the
fallback badge "Result". -/
theorem scoreBadge_precedence_witness :
    scoreBadge { title := "t" } = .fallback ∧
      scoreBadgeLabel (scoreBadge { title := "t" }) = "Result" :=
  (scoreBadge_precedence { title := "t" }).2.2.2 rfl rfl rfl

/-- C10: the legacy `searchVectors` is exactly `searchHybrid` with only the
query and limit set, so the posted body carries the hybrid defaults
vector_weight 0.5 and merge_method weighted, and the request goes to the
hybrid endpoint `/api/search`, not to the vector-only endpoint. -/
theorem searchVectors_is_default_hybrid (net : Net) (tr : Trace)
    (query : String) (limit : Int) :
    searchVectors net tr query limit =
      searchHybrid net tr { query := query, limit := some limit } ∧
    (hybridBody { query := query, limit := some limit }).vector_weight = 1/2 ∧
    (hybridBody { query := query, limit := some limit }).merge_method = .weighted ∧
    (searchVectors net tr query limit).1.log =
      (switchToLocalIfNeeded net tr).log ++
        [{ method := "POST",
           baseUrl := (switchToLocalIfNeeded net tr).client.apiBaseUrl,
           path := "/api/search",
           body := .search (hybridBody { query := query, limit := some limit }),
           timeoutMs := none }] :=
  ⟨rfl, rfl, rfl, rfl⟩

/-- C5 counterexample: a caller-supplied `limit` of 0 is *not* carried
unchanged — JavaScript `params.limit || 5` replaces the falsy 0 by the
default 5, so the request body posted to the hybrid endpoint carries
limit 5 for the explicit input limit 0. -/
theorem searchHybrid_limit_zero_cex :
    ((searchHybrid noNet trLocal { query := "q", limit := some 0 }).1.log.map
        Request.body =
      [.search { query := "q", limit := 5, vector_weight := 1/2,
                 merge_method := .weighted }]) ∧
    (5 : Int) ≠ 0 := by
  exact ⟨rfl, by decide⟩

/-- C5 (amended): `searchHybrid` posts exactly one request to `/api/search`
whose body carries the defaults limit 5, vector_weight 0.5 and merge_method
weighted when the corresponding field is omitted *or is the falsy number 0*
(JavaScript `||` semantics), and the caller-supplied value unchanged in every
other case. -/
theorem searchHybrid_request_body (net : Net) (tr : Trace) (p : SearchParams) :
    (searchHybrid net tr p).1.log =
      (switchToLocalIfNeeded net tr).log ++
        [{ method := "POST",
           baseUrl := (switchToLocalIfNeeded net tr).client.apiBaseUrl,
           path := "/api/search", body := .search (hybridBody p),
           timeoutMs := none }] ∧
    (hybridBody p).query = p.query ∧
    ((p.limit = none ∨ p.limit = some 0) → (hybridBody p).limit = 5) ∧
    (∀ v, p.limit = some v → v ≠ 0 → (hybridBody p).limit = v) ∧
    ((p.vector_weight = none ∨ p.vector_weight = some 0) →
      (hybridBody p).vector_weight = 1/2) ∧
    (∀ w, p.vector_weight = some w → w ≠ 0 → (hybridBody p).vector_weight = w) ∧
    (p.merge_method = none → (hybridBody p).merge_method = .weighted) ∧
    (∀ m, p.merge_method = some m → (hybridBody p).merge_method = m) := by
  refine ⟨rfl, rfl, ?_, ?_, ?_, ?_, ?_, ?_⟩
  · rintro (h | h) <;> simp [hybridBody, jsOrInt, h]
  · intro v hv hne
    simp [hybridBody, jsOrInt, hv, hne]
  · rintro (h | h) <;> simp [hybridBody, jsOrRat, h]
  · intro w hw hne
    simp [hybridBody, jsOrRat, hw, hne]
  · intro h
    simp [hybridBody, h]
  · intro m hm
    simp [hybridBody, hm]

/-- Witness for C5 (amended): limit 0 is replaced by the default 5, and a
non-zero limit 2 with weight 0.3 and method interleave passes through
unchanged. -/
theorem searchHybrid_request_body_witness :
    (hybridBody { query := "q", limit := some 0 }).limit = 5 ∧
    (hybridBody { query := "q", limit := some 2, vector_weight := some (3/10),
                  merge_method := some .interleave }).limit = 2 ∧
    (hybridBody { query := "q", limit := some 2, vector_weight := some (3/10),
                  merge_method := some .interleave }).vector_weight = 3/10 ∧
    (hybridBody { query := "q", limit := some 2, vector_weight := some (3/10),
                  merge_method := some .interleave }).merge_method = .interleave := by
  have h1 := searchHybrid_request_body noNet trLocal { query := "q", limit := some 0 }
  have h2 := searchHybrid_request_body noNet trLocal
    { query := "q", limit := some 2, vector_weight := some (3/10),
      merge_method := some .interleave }
  refine ⟨h1.2.2.1 (Or.inr rfl), h2.2.2.2.1 2 rfl (by decide), ?_, ?_⟩
  · exact h2.2.2.2.2.2.1 (3/10) rfl (by norm_num)
  · exact h2.2.2.2.2.2.2.2 .interleave rfl

/-- Helper: once on the fallback, the probe-and-switch step does nothing. -/
theorem switchToLocalIfNeeded_fallback (net : Net) (tr : Trace)
    (h : tr.client.usingFallback = true) :
    switchToLocalIfNeeded net tr = tr := by
  simp [switchToLocalIfNeeded, h]

/-- Helper: one operation run from a fallback state leaves the client state
untouched and targets every newly issued request at the current base URL. -/
theorem runOp_fallback (net : Net) (op : Op) (tr : Trace)
    (h : tr.client.usingFallback = true) :
    (runOp net op tr).client = tr.client ∧
    ∀ r ∈ (runOp net op tr).log, r ∈ tr.log ∨ r.baseUrl = tr.client.apiBaseUrl := by
  cases op with
  | opHealthCheck =>
    simp only [runOp, healthCheck, switchToLocalIfNeeded_fallback net tr h, issue]
    cases net.health tr.log.length
        { method := "GET", baseUrl := tr.client.apiBaseUrl, path := "/api/health",
          body := .empty, timeoutMs := none } with
    | ok resp =>
      simp
      rintro r (hr | rfl)
      · exact Or.inl hr
      · exact Or.inr rfl
    | error e =>
      simp only [h]
      simp
      rintro r (hr | rfl)
      · exact Or.inl hr
      · exact Or.inr rfl
  | opGetDebugInfo =>
    simp only [runOp, getDebugInfo, switchToLocalIfNeeded_fallback net tr h, issue]
    simp
    rintro r (hr | rfl)
    · exact Or.inl hr
    · exact Or.inr rfl
  | opSearchHybrid p =>
    simp only [runOp, searchHybrid, switchToLocalIfNeeded_fallback net tr h, issue]
    simp
    rintro r (hr | rfl)
    · exact Or.inl hr
    · exact Or.inr rfl
  | opSearchVectorOnly p =>
    simp only [runOp, searchVectorOnly, switchToLocalIfNeeded_fallback net tr h, issue]
    simp
    rintro r (hr | rfl)
    · exact Or.inl hr
    · exact Or.inr rfl
  | opSearchKnowledgeGraphOnly p =>
    simp only [runOp, searchKnowledgeGraphOnly, switchToLocalIfNeeded_fallback net tr h, issue]
    simp
    rintro r (hr | rfl)
    · exact Or.inl hr
    · exact Or.inr rfl
  | opSendChatMessage q hist =>
    simp only [runOp, sendChatMessage, searchHybrid,
      switchToLocalIfNeeded_fallback net tr h, issue]
    cases net.search tr.log.length
        { method := "POST", baseUrl := tr.client.apiBaseUrl, path := "/api/search",
          body := .search (hybridBody (chatSearchParams q)), timeoutMs := none } with
    | error e =>
      simp
      rintro r (hr | rfl)
      · exact Or.inl hr
      · exact Or.inr rfl
    | ok rs =>
      simp only []
      cases net.chat (tr.log ++ [_]).length
          { method := "POST", baseUrl := tr.client.apiBaseUrl, path := "/api/chat",
            body := .chat { query := q, chat_history := hist, context := rs },
            timeoutMs := none } with
      | error e =>
        simp
        rintro r (hr | rfl | rfl)
        · exact Or.inl hr
        · exact Or.inr rfl
        · exact Or.inr rfl
      | ok resp =>
        simp
        rintro r (hr | rfl | rfl)
        · exact Or.inl hr
        · exact Or.inr rfl
        · exact Or.inr rfl

/-- Helper: a whole operation sequence run from a fallback state leaves the
client untouched and targets every newly issued request at the current base
URL. -/
theorem runOps_fallback (net : Net) (ops : List Op) :
    ∀ (tr : Trace), tr.client.usingFallback = true →
      (runOps net ops tr).client = tr.client ∧
      ∀ r ∈ (runOps net ops tr).log, r ∈ tr.log ∨ r.baseUrl = tr.client.apiBaseUrl := by
  induction ops with
  | nil =>
    intro tr h
    exact ⟨rfl, fun r hr => Or.inl hr⟩
  | cons op ops ih =>
    intro tr h
    have hstep := runOp_fallback net op tr h
    have hrest := ih (runOp net op tr) (by rw [hstep.1]; exact h)
    have hruns : runOps net (op :: ops) tr = runOps net ops (runOp net op tr) := rfl
    rw [hruns]
    constructor
    · rw [hrest.1, hstep.1]
    · intro r hr
      rcases hrest.2 r hr with hin | hbase
      · rcases hstep.2 r hin with hin2 | hbase2
        · exact Or.inl hin2
        · exact Or.inr hbase2
      · right
        rw [hbase, hstep.1]

/-- C1: sticky fallback.  From any session state in which a primary failure
has been observed (`usingFallback` set and `apiBaseUrl` switched to the local
address), every outbound request issued by any subsequent sequence of
`VectorClient` operations (healthCheck, getDebugInfo, searchHybrid,
searchVectorOnly, searchKnowledgeGraphOnly, sendChatMessage) targets the
local fallback endpoint, and the client stays in exactly that fallback state:
there is no transition back to the primary. -/
theorem vectorClient_sticky_fallback (net : Net) (ops : List Op) (c : Client)
    (h1 : c.usingFallback = true) (h2 : c.apiBaseUrl = localUrl) :
    (runOps net ops { client := c, log := [] }).client = c ∧
    ∀ r ∈ (runOps net ops { client := c, log := [] }).log, r.baseUrl = localUrl := by
  have h := runOps_fallback net ops { client := c, log := [] } h1
  refine ⟨h.1, fun r hr => ?_⟩
  rcases h.2 r hr with hin | hbase
  · simp at hin
  · rw [hbase]
    exact h2

/-- Witness for C1: an arbitrary failing network and a two-operation session
starting on the fallback keep the client on the fallback and send every
request to the local address. -/
theorem vectorClient_sticky_fallback_witness :
    (runOps noNet [Op.opHealthCheck, Op.opSearchHybrid { query := "q" }]
        { client := fallbackClient, log := [] }).client.usingFallback = true ∧
    ∀ r ∈ (runOps noNet [Op.opHealthCheck, Op.opSearchHybrid { query := "q" }]
        { client := fallbackClient, log := [] }).log, r.baseUrl = localUrl := by
  have h := vectorClient_sticky_fallback noNet
    [Op.opHealthCheck, Op.opSearchHybrid { query := "q" }] fallbackClient rfl rfl
  exact ⟨by rw [h.1]; rfl, h.2⟩

/-- C4 counterexample: when the primary probe fails with one error and the
subsequent request against the fallback address fails with a different error,
`healthCheck` surfaces the *fallback* error, not the original primary
error. -/
theorem healthCheck_original_error_cex :
    (healthCheck bothFailNet { client := remoteClient, log := [] }).2 =
      .error { message := "fallback down" } ∧
    bothFailNet.health 0
        { method := "GET", baseUrl := primaryUrl, path := "/api/health",
          body := .empty, timeoutMs := some 3000 } =
      .error { message := "primary down" } ∧
    ({ message := "fallback down" } : JsError) ≠ { message := "primary down" } := by
  refine ⟨rfl, rfl, ?_⟩
  decide

/-- C4 (amended): if the probe of the primary endpoint fails with error `e1`
and the request against the fallback address also fails with error `e2`, the
error surfaced to the caller is `e2` — the unaltered error of the final
fallback attempt (no synthetic error type), not the original primary
error. -/
theorem healthCheck_surfaces_retry_error (net : Net) (c : Client)
    (e1 e2 : JsError)
    (hf : c.usingFallback = false)
    (hl : strIncludes c.apiBaseUrl "localhost" = false)
    (hp : net.health 0
        { method := "GET", baseUrl := c.apiBaseUrl, path := "/api/health",
          body := .empty, timeoutMs := some 3000 } = .error e1)
    (hr : net.health 1
        { method := "GET", baseUrl := localUrl, path := "/api/health",
          body := .empty, timeoutMs := none } = .error e2) :
    (healthCheck net { client := c, log := [] }).2 = .error e2 := by
  simp [healthCheck, switchToLocalIfNeeded, issue, switchToLocal, hf, hl, hp, hr]

/-- Witness for C4 (amended): on the two-error oracle the surfaced error is
the fallback-side error. -/
theorem healthCheck_surfaces_retry_error_witness :
    (healthCheck bothFailNet { client := remoteClient, log := [] }).2 =
      .error { message := "fallback down" } :=
  healthCheck_surfaces_retry_error bothFailNet remoteClient
    { message := "primary down" } { message := "fallback down" }
    rfl rfl rfl rfl

/-- C2 counterexample: when the context retrieval inside `sendChatMessage`
fails, no request is ever made to the chat endpoint and the turn surfaces the
retrieval error instead of producing a ChatResponse with empty context. -/
theorem chat_retrieval_failure_cex :
    (sendChatMessage noNet trLocal "q" []).2 = .error { message := "down" } ∧
    ∀ r ∈ (sendChatMessage noNet trLocal "q" []).1.log, r.path ≠ "/api/chat" := by
  refine ⟨rfl, ?_⟩
  decide

/-- C2 (amended): if the context-retrieval step of a chat turn fails with
error `e`, the remote chat call is *not* performed — `sendChatMessage`
propagates `e` unchanged and issues no request beyond those of the failed
retrieval. -/
theorem sendChatMessage_retrieval_failure (net : Net) (tr : Trace)
    (q : String) (hist : List ChatMessage) (e : JsError)
    (hfail : (searchHybrid net (switchToLocalIfNeeded net tr)
        (chatSearchParams q)).2 = .error e) :
    (sendChatMessage net tr q hist).2 = .error e ∧
    (sendChatMessage net tr q hist).1 =
      (searchHybrid net (switchToLocalIfNeeded net tr) (chatSearchParams q)).1 := by
  rcases hsh : searchHybrid net (switchToLocalIfNeeded net tr) (chatSearchParams q)
    with ⟨tr1, res⟩
  rw [hsh] at hfail
  simp only at hfail
  subst hfail
  constructor
  · simp only [sendChatMessage, hsh]
  · simp only [sendChatMessage, hsh]

/-- Witness for C2 (amended): on the all-failing oracle the chat turn
surfaces the retrieval error. -/
theorem sendChatMessage_retrieval_failure_witness :
    (sendChatMessage noNet trLocal "hello" []).2 = .error { message := "down" } :=
  (sendChatMessage_retrieval_failure noNet trLocal "hello" []
    { message := "down" } rfl).1

/-- C6 counterexample: at the Chat Context Assembler boundary
(`ChatService.generateResponse`) the user-visible sources come from a
*separate* retrieval call, so with a network whose search answers differ over
time the items attached to the chat call as context (here `[]`) are not the
sources returned to the caller (here `[resA]`). -/
theorem chat_sources_mismatch_cex :
    (generateResponse flakySearchNet trLocal "q" []).2.sources = [resA] ∧
    ((generateResponse flakySearchNet trLocal "q" []).1.log.map Request.body).getLast?
      = some (.chat { query := "q", chat_history := [], context := [] }) ∧
    ([resA] : List VectorSearchResult) ≠ [] := by
  refine ⟨rfl, rfl, ?_⟩
  simp

/-- C6 (amended): within `VectorClient.sendChatMessage` the retrieved items
attached to the remote chat call as context are exactly the sources of the
`ChatResponse` it returns: whenever the call succeeds, the last issued
request is the chat request and its context equals the returned sources. -/
theorem sendChatMessage_context_eq_sources (net : Net) (tr : Trace)
    (q : String) (hist : List ChatMessage) (resp : ChatResponse)
    (hok : (sendChatMessage net tr q hist).2 = .ok resp) :
    ∃ b : ChatReqBody,
      (sendChatMessage net tr q hist).1.log.getLast? =
        some { method := "POST",
               baseUrl := (sendChatMessage net tr q hist).1.client.apiBaseUrl,
               path := "/api/chat", body := .chat b, timeoutMs := none } ∧
      b.context = resp.sources ∧ b.query = q ∧ b.chat_history = hist := by
  rcases hsh : searchHybrid net (switchToLocalIfNeeded net tr) (chatSearchParams q)
    with ⟨tr1, res⟩
  cases res with
  | error e =>
    rw [show sendChatMessage net tr q hist = (tr1, .error e) by
      simp only [sendChatMessage, hsh]] at hok
    simp at hok
  | ok rs =>
    cases hc : net.chat tr1.log.length
        { method := "POST", baseUrl := tr1.client.apiBaseUrl, path := "/api/chat",
          body := .chat { query := q, chat_history := hist, context := rs },
          timeoutMs := none } with
    | error e =>
      rw [show sendChatMessage net tr q hist =
          ({ tr1 with log := tr1.log ++
              [{ method := "POST", baseUrl := tr1.client.apiBaseUrl,
                 path := "/api/chat",
                 body := .chat { query := q, chat_history := hist, context := rs },
                 timeoutMs := none }] }, .error e) by
        simp only [sendChatMessage, hsh, issue, hc]] at hok
      simp at hok
    | ok c =>
      rw [show sendChatMessage net tr q hist =
          ({ tr1 with log := tr1.log ++
              [{ method := "POST", baseUrl := tr1.client.apiBaseUrl,
                 path := "/api/chat",
                 body := .chat { query := q, chat_history := hist, context := rs },
                 timeoutMs := none }] },
            .ok { response := c.response, sources := rs }) by
        simp only [sendChatMessage, hsh, issue, hc]] at hok ⊢
      simp only [Except.ok.injEq] at hok
      refine ⟨{ query := q, chat_history := hist, context := rs }, ?_, ?_, rfl, rfl⟩
      · simp
      · rw [← hok]

/-- Witness for C6 (amended): on the all-succeeding oracle the successful
chat turn attaches exactly the returned sources as context. -/
theorem sendChatMessage_context_eq_sources_witness :
    ∃ b : ChatReqBody,
      (sendChatMessage okNet trLocal "q" []).1.log.getLast? =
        some { method := "POST",
               baseUrl := (sendChatMessage okNet trLocal "q" []).1.client.apiBaseUrl,
               path := "/api/chat", body := .chat b, timeoutMs := none } ∧
      b.context = ({ response := "hello", sources := [resA] } : ChatResponse).sources ∧
      b.query = "q" ∧ b.chat_history = [] :=
  sendChatMessage_context_eq_sources okNet trLocal "q" []
    { response := "hello", sources := [resA] } rfl

/-- C3: `ChatService.generateResponse` is total (it always returns an
assistant-role `ChatServiceResponse`, so no exception escapes its boundary
for any combination of retrieval and chat failures), and whenever the remote
chat call fails with error `e` it returns the synthesized assistant message
carrying the human-readable error description with empty sources. -/
theorem generateResponse_error_synthesis (net : Net) (tr : Trace)
    (q : String) (hist : List ChatMessage) :
    ((generateResponse net tr q hist).2.message.role = .assistant) ∧
    (∀ e, (sendChatMessage net (retrieveContext net tr q).1 q hist).2 = .error e →
      (generateResponse net tr q hist).2 =
        { message := { role := .assistant, content := errorReplyIntro ++ e.message },
          sources := [] }) := by
  rcases hrc : retrieveContext net tr q with ⟨tr1, docs⟩
  rcases hscm : sendChatMessage net tr1 q hist with ⟨tr2, res⟩
  constructor
  · simp only [generateResponse, hrc, hscm]
    cases res <;> simp
  · intro e he
    simp only [hrc, hscm] at he
    subst he
    simp only [generateResponse, hrc, hscm]

/-- Witness for C3: on the all-failing oracle the turn ends in the
synthesized error reply with empty sources. -/
theorem generateResponse_error_synthesis_witness :
    (generateResponse noNet trLocal "q" []).2 =
      { message := { role := .assistant, content := errorReplyIntro ++ "down" },
        sources := [] } :=
  (generateResponse_error_synthesis noNet trLocal "q" []).2 { message := "down" } rfl

/-- C8: the in-flight flag lifecycle.  For every network behaviour and every
initial UI state: whenever `handleSearch`, `loadInitialResults` or
`handleChatSubmit` performs its network call, the UI state in effect during
the call has the loading flag set; the final state has the flag cleared (the
`finally` block runs on the success path and on every error path); and on the
early-return path (blank input, no network call) the state is left completely
untouched — so no handler execution ends with a loading flag it set still
set. -/
theorem handlers_clear_loading_flag (net : Net) (tr : Trace)
    (sui : SearchUI) (cui : ChatUI) :
    (∀ u, (handleSearch net tr sui).2.1 = some u → u.isSearching = true) ∧
    ((handleSearch net tr sui).2.1.isSome = true →
      (handleSearch net tr sui).2.2.isSearching = false) ∧
    ((handleSearch net tr sui).2.1 = none → (handleSearch net tr sui).2.2 = sui) ∧
    (∀ u, (loadInitialResults net tr sui).2.1 = some u → u.isSearching = true) ∧
    ((loadInitialResults net tr sui).2.2.isSearching = false) ∧
    (∀ u, (handleChatSubmit net tr cui).2.1 = some u → u.isLoading = true) ∧
    ((handleChatSubmit net tr cui).2.1.isSome = true →
      (handleChatSubmit net tr cui).2.2.isLoading = false ∧
      (handleChatSubmit net tr cui).2.2.isStreaming = false) ∧
    ((handleChatSubmit net tr cui).2.1 = none →
      (handleChatSubmit net tr cui).2.2 = cui) := by
  refine ⟨?_, ?_, ?_, ?_, ?_, ?_, ?_, ?_⟩
  · intro u hu
    by_cases hq : jsTrim sui.searchQuery = ""
    · simp [handleSearch, hq] at hu
    · simp only [handleSearch, if_neg hq, Option.some.injEq] at hu
      subst hu
      rfl
  · intro hs
    by_cases hq : jsTrim sui.searchQuery = ""
    · simp [handleSearch, hq] at hs
    · simp only [handleSearch, if_neg hq]
  · intro hn
    by_cases hq : jsTrim sui.searchQuery = ""
    · simp [handleSearch, hq]
    · simp [handleSearch, hq] at hn
  · intro u hu
    simp only [loadInitialResults, Option.some.injEq] at hu
    subst hu
    rfl
  · rfl
  · intro u hu
    by_cases hq : jsTrim cui.currentMessage = ""
    · simp [handleChatSubmit, hq] at hu
    · simp only [handleChatSubmit, if_neg hq, Option.some.injEq] at hu
      subst hu
      rfl
  · intro hs
    by_cases hq : jsTrim cui.currentMessage = ""
    · simp [handleChatSubmit, hq] at hs
    · simp [handleChatSubmit, hq]
  · intro hn
    by_cases hq : jsTrim cui.currentMessage = ""
    · simp [handleChatSubmit, hq]
    · simp [handleChatSubmit, hq] at hn

/-- Witness for C8: on the all-failing oracle from a concrete non-blank UI
state, the search handler makes its call with the flag set and ends with it
cleared. -/
theorem handlers_clear_loading_flag_witness :
    ((handleSearch noNet trLocal
        { searchQuery := "q", searchResults := [], isSearching := false,
          searchError := none, searchMode := .hybrid, vectorWeight := 1/2,
          mergeMethod := .weighted, searchLimit := 5 }).2.2.isSearching = false) ∧
    ((handleChatSubmit noNet trLocal
        { chatMessages := [], currentMessage := "hi", isLoading := false,
          isStreaming := false, currentSources := [] }).2.2.isLoading = false) := by
  have h1 := handlers_clear_loading_flag noNet trLocal
    { searchQuery := "q", searchResults := [], isSearching := false,
      searchError := none, searchMode := .hybrid, vectorWeight := 1/2,
      mergeMethod := .weighted, searchLimit := 5 }
    { chatMessages := [], currentMessage := "hi", isLoading := false,
      isStreaming := false, currentSources := [] }
  exact ⟨h1.2.1 (by rfl), (h1.2.2.2.2.2.2.1 (by rfl)).1⟩
